import Mathlib

/-!
Shallow embedding of `src/deepagents/graph.py` (the `create_deep_agent` factory)
and verification of its specified properties.

External collaborators that are not part of this repository's source
(`create_react_agent` from langgraph, and the repository modules
`deepagents.sub_agent`, `deepagents.model`, `deepagents.state`,
`deepagents.interrupt` which are not present under `src/`) are modelled as
uninterpreted injective constructors that record their arguments, so that the
data-flow of the factory can be stated and checked exactly.
-/

namespace DeepAgents

/-- A model reference: Python type `Optional[Union[str, LanguageModelLike]]`
resolves (when present) to either a string name or an opaque model object. -/
inductive ModelRef where
  | str : String → ModelRef
  | obj : Nat → ModelRef
deriving DecidableEq, Repr

/-- Modelled from the spec: `get_default_model` (module `deepagents.model`,
not under `src/`) supplies the default model reference used when the caller
passes `model=None`. Its concrete value is irrelevant to every claim; only its
identity as "the default model" matters. -/
def get_default_model : ModelRef := ModelRef.obj 0

/-- Modelled from the spec: a sub-agent is "a named, independently prompted
delegate configuration" (glossary). Its fields are opaque to the factory,
which only forwards the list, so an opaque identifier suffices. -/
structure SubAgent where
  id : Nat
deriving DecidableEq, Repr

/-- Modelled from the spec: the state-schema type. `DeepAgentState` (module
`deepagents.state`, not under `src/`) is the distinguished default schema;
a caller may supply any other schema type. -/
inductive StateSchemaT where
  | deepAgentState : StateSchemaT
  | custom : Nat → StateSchemaT
deriving DecidableEq, Repr

/-- The default state schema `DeepAgentState`. -/
def DeepAgentState : StateSchemaT := StateSchemaT.deepAgentState

/-- Python type `ToolInterruptConfig = Dict[str, HumanInterruptConfig]`: a Python dict,
modelled as an association list (tool name to opaque interrupt config).
An empty dict is a legal, falsy value of this type. -/
abbrev ToolInterruptConfig := List (String × Nat)

/-- A post-model hook (Python `Callable`). `custom` stands for a
caller-supplied callable; `interruptHook cfg` is the hook built by
`create_interrupt_hook cfg`. Distinct constructors keep the two origins
distinguishable, as distinct function objects are in Python. -/
inductive Hook where
  | custom : Nat → Hook
  | interruptHook : ToolInterruptConfig → Hook
deriving DecidableEq, Repr

/-- Modelled from the spec: `create_interrupt_hook` (module
`deepagents.interrupt`, not under `src/`) builds a post-model hook from an
interrupt configuration; modelled as an injective constructor. -/
def create_interrupt_hook (cfg : ToolInterruptConfig) : Hook :=
  Hook.interruptHook cfg

/-- A tool. `user i` is an opaque caller-supplied tool; `task` is the
delegation tool returned by `_create_task_tool`, recording the arguments it
was built from. -/
inductive Tool where
  | user : Nat → Tool
  | task : List Tool → String → List SubAgent → ModelRef → StateSchemaT → Tool

/-- Lines 15-141: the `base_prompt` template string, verbatim (braces,
apostrophes, backticks and hashes written as hex escapes). -/
def base_prompt : String :=
  "\nYou are a curious, meticulous and highly effective researcher. Your job is to conduct research following user\x27s question.\n\n<context>\nYou are exposed to a multi-modal knowledge discovery platform designed to find **non-obvious patterns** through your tools (across complex research data through specialized knowledge graphs).\n\n**What You Have Access To Through your tools to answer user\x27s question:**\n\n**Similarity Graphs** (Semantic Discovery):\n- Papers, concepts, methodologies, frameworks\n- Finds semantically similar entities and clusters\n- Uses sentence transformers for deep semantic understanding\n\n**Relational Graphs** (Structured Knowledge):\n- **MOA Graph**: Drug mechanisms → targets → diseases\n- **PS Graph**: Problems → methodologies → solutions  \n- **EP Graph**: Papers → citations → controversies\n\n**Cross-Domain Capabilities**:\n- Multi-hop pathway discovery across different knowledge types\n- Cross-domain innovation opportunities\n- Hidden connection detection between research fields\n- Bridge analysis connecting disparate domains\n\n**Your Power**: Through using your tools, you can discover connections that traditional single-graph approaches miss by querying across multiple specialized knowledge representations simultaneously. Use this to find breakthrough insights, emerging trends, and novel research opportunities.\n</context>\n\n<Task>\nYour focus is to call the list_research_skills() and execute_research_skill() tools to conduct research against the overall research question passed in by the user. \nWhen you are completely satisfied with the research findings returned from the tool calls, then you should provide a summary of the findings and any recommendations for further action.\n</Task>\n\n\n<Available Tools>\nYou have access to three main tools:\n\n1. **list_research_skills()**: This tool allows you to discover all available research skills and their parameters. You should call this tool first to understand what capabilities you have at your disposal. If you get confused about how to use a skill, always refer back to this tool to see the exact skill names and required parameters.\n\n2. **execute_research_skill()**: This tool lets you execute a specific research skill with the required parameters. You must use the exact skill name and provide the necessary arguments.\n\n</Available Tools>\n\n<WHO YOU ARE>\nThink like a research manager with limited time and resources. THIS IS FUNDAMENTALLY WHO YOU ARE. SOME WHO :\n\n1. **Reads the question carefully** - What specific information does the user need?\n2. **Decides how to approach the research** - Carefully consider the question and decide how to tackle the research. Are there multiple independent directions that can be explored simultaneously?\n3. **Plans your approach** - Break down the research into manageable tasks. Use the write_todos tool to create a list of tasks that will help you stay organized and focused.\n4. **Updates your plan as you go** - As you complete tasks, use the update_todos tool to mark them as done. If new tasks arise, add them to your list.\n5. **After each tool call, pauses and assesses** - Do I have enough to answer? What\x27s still missing? What is the best next tool call ? Did I update my progress in the todo list?\n6. **Uses the file system as your external brain** - Save important findings, analyses, and thoughts to files immediately.\n</WHO YOU ARE>\n\n<Show Your Thinking>\nBefore you call the execute_research_skill tool, think about your plan your approach:\n- Can the question be broken down into smaller sub-tasks?\n\nAfter each execute_research_skill tool call, think to analyze the results:\n- What key information did I find?\n- What\x27s missing?\n- Do I have enough to answer the question comprehensively?\n</Show Your Thinking>\n\n<Skill Execution Pattern>\nTo use any research skill, you MUST follow this two-step pattern:\n\n1. **First, always call \x60list_research_skills()\x60** to see all available skills with their exact names and required parameters\n2. **Then call \x60execute_research_skill(skill_name=\"exact_name\", kwargs=\x7bparams\x7d)\x60** with the precise skill name and parameters\n\n**Best Practice**: Never guess skill names. Always list skills first to get the exact spelling and parameter requirements. This prevents the endless error loops of trying incorrect names.\n\n**Examples**:\n\n\x23 Step 1: Discover what\x27s available\nlist_research_skills()\n\n\x23 Step 2: Use exact skill name from the list\nexecute_research_skill(\n    skill_name=\"search_papers\", \n    kwargs=\x7b\"query\": \"drug mechanisms\", \"limit\": 10\x7d\n)\n\n\x23 Another example:\nexecute_research_skill(\n    skill_name=\"write_todos\", \n    kwargs=\x7b\n        \"todos\": [\n            \x7b\"id\": \"1\", \"description\": \"List available research skills to understand capabilities\", \"completed\": True\x7d,\n            \x7b\"id\": \"2\", \"description\": \"Search papers for diethylcarbamazine mechanism of action\", \"completed\": False\x7d,\n            \x23 ... rest of todos\n        ]\n    \x7d\n)\n\n\x23 Example after completing a task to mark it done in the todo list\nexecute_research_skill(\n    skill_name=\"update_todos\", \n    kwargs=\x7b\x27todo_id\x27: \x272\x27, \x27completed\x27: True\x7d\n)\n\n\nexecute_research_skill(\n    skill_name=\"custom_multi_hop_search\", \n    kwargs=\x7b\x27query\x27: \x27parasite immunity\x27, \x27max_hops\x27: 3\x7d\n)\n\n\n\nexecute_research_skill(\n    skill_name=\"cross_type_search\", \n    kwargs=\x7b\x27query\x27: \x27parasite immunity\x27, \x27source_type\x27: \x27papers\x27, \x27target_type\x27: \x27concepts\x27, \x27limit\x27: 3\x7d\n)\n</Skill Execution Pattern>\n\n<Planning and Task Management with Todos>\n\x23\x23 \x60write_todos\x60 and \x60update_todos\x60 skill\n\nYou have access to the \x60write_todos\x60 and \x60update_todos\x60 skill tools to help you manage and plan tasks. Use these tools VERY frequently to ensure that you are tracking your tasks and giving the user visibility into your progress.\nThese tools are also EXTREMELY helpful for planning tasks, and for breaking down larger complex tasks into smaller steps. If you do not use this tool when planning, you may forget to do important tasks - and that is unacceptable.\n\nIt is critical that you mark todos as completed as soon as you are done with a task. Do not batch up multiple tasks before marking them as completed.\n\n\x23\x23 File System = Your External Brain\n\nYou MUST use \x60write_file\x60, \x60read_file\x60, \x60edit_file\x60, \x60ls\x60 as your **permanent memory**. Every important finding, analysis, or thought MUST be saved to files immediately - never let knowledge disappear. Create \x60.md\x60 files for research, \x60.txt\x60 files for data, and continuously update them. This is NOT optional - your effectiveness depends on building this persistent knowledge base. Save everything: discoveries, reasoning, intermediate results, and summaries. Use descriptive filenames and treat files as your **thinking workspace** that survives across all conversations.\n</Planning and Task Management with Todos>\n"

/-- Modelled from the spec: `_create_task_tool` (module
`deepagents.sub_agent`, not under `src/`) assembles "delegation to
sub-agents" into a single task tool from the tool list, instructions,
sub-agent list, model and state schema; modelled as an injective constructor
recording its arguments in order. -/
def _create_task_tool (tools : List Tool) (instructions : String)
    (subagents : List SubAgent) (model : ModelRef)
    (state_schema : StateSchemaT) : Tool :=
  Tool.task tools instructions subagents model state_schema

/-- The result of `create_react_agent`: the external agent-execution engine
(langgraph, a black box per the spec) is modelled as an injective record of
the seven arguments the factory hands it, returned as the runnable agent. -/
structure ReactAgent where
  model : ModelRef
  prompt : String
  tools : List Tool
  state_schema : StateSchemaT
  post_model_hook : Option Hook
  config_schema : Option Nat
  checkpointer : Option Nat

/-- The external constructor `create_react_agent`, modelled as the record
constructor of `ReactAgent`. -/
def create_react_agent (model : ModelRef) (prompt : String)
    (tools : List Tool) (state_schema : StateSchemaT)
    (post_model_hook : Option Hook) (config_schema : Option Nat)
    (checkpointer : Option Nat) : ReactAgent :=
  ⟨model, prompt, tools, state_schema, post_model_hook, config_schema,
   checkpointer⟩

/-- The parameters of `create_deep_agent`, with the Python defaults
(`None` for every optional parameter). -/
structure Args where
  tools : List Tool
  instructions : String
  model : Option ModelRef := none
  subagents : Option (List SubAgent) := none
  state_schema : Option StateSchemaT := none
  interrupt_config : Option ToolInterruptConfig := none
  config_schema : Option Nat := none
  checkpointer : Option Nat := none
  post_model_hook : Option Hook := none

/-- Python truthiness of the `post_model_hook` argument: `None` is falsy and
any callable object is truthy, so truthiness coincides with being non-None. -/
def hookTruthy (o : Option Hook) : Bool :=
  o.isSome

/-- Python truthiness of the `interrupt_config` argument: `None` is falsy,
and a dict is truthy iff it is non-empty. -/
def cfgTruthy (o : Option ToolInterruptConfig) : Bool :=
  match o with
  | none => false
  | some cfg => !cfg.isEmpty

/-- Line 178: `built_in_tools = []` (the todo/file tools are commented out
in the source). -/
def built_in_tools : List Tool := []

/-- Line 177: `prompt = base_prompt + instructions`. -/
def promptOf (a : Args) : String :=
  base_prompt ++ a.instructions

/-- Lines 179-180: `if model is None: model = get_default_model()`. -/
def modelOf (a : Args) : ModelRef :=
  a.model.getD get_default_model

/-- Line 181: `state_schema = state_schema or DeepAgentState` (a class is
always truthy, so `or` falls back exactly on `None`). -/
def schemaOf (a : Args) : StateSchemaT :=
  a.state_schema.getD DeepAgentState

/-- Lines 182-188: the task tool built (and then never used: line 189 has
`+ [task_tool]` commented out) by the factory, with
`subagents or []` collapsing both `None` and `[]` to `[]`. -/
def taskToolOf (a : Args) : Tool :=
  _create_task_tool (a.tools ++ built_in_tools) a.instructions
    (a.subagents.getD []) (modelOf a) (schemaOf a)

/-- Line 189: `all_tools = built_in_tools + list(tools)` (the
`+ [task_tool]` part is commented out in the source). -/
def allToolsOf (a : Args) : List Tool :=
  built_in_tools ++ a.tools

/-- Line 192: the guard `if post_model_hook and interrupt_config`, i.e. the
conjunction of the two Python truthiness tests. -/
def raisesConfigError (a : Args) : Bool :=
  hookTruthy a.post_model_hook && cfgTruthy a.interrupt_config

/-- Lines 192-202: the post-model hook selected for the engine on the
non-raising path. -/
def selectedHookOf (a : Args) : Option Hook :=
  if a.post_model_hook.isSome then a.post_model_hook
  else
    match a.interrupt_config with
    | some cfg => some (create_interrupt_hook cfg)
    | none => none

/-- The factory `create_deep_agent` (lines 144-212). The first component is the Python
return value (`Except.error` models the raised `ValueError`); the second
component is the trace of calls made to the external `create_react_agent`,
in order, so that "called exactly once" and "never called" are statable. -/
def create_deep_agent (a : Args) : Except String ReactAgent × List ReactAgent :=
  let prompt := promptOf a
  let model := modelOf a
  let state_schema := schemaOf a
  let all_tools := allToolsOf a
  if raisesConfigError a then
    (Except.error
      "Cannot specify both post_model_hook and interrupt_config together. Use either interrupt_config for tool interrupts or post_model_hook for custom post-processing.",
     [])
  else
    let agent := create_react_agent model prompt all_tools state_schema
      (selectedHookOf a) a.config_schema a.checkpointer
    (Except.ok agent, [agent])

/-- Projection: the model argument a task tool was built from
(`none` on a caller-supplied tool). -/
def Tool.taskModel : Tool → Option ModelRef
  | Tool.task _ _ _ m _ => some m
  | Tool.user _ => none

/-- Projection: the state-schema argument a task tool was built from
(`none` on a caller-supplied tool). -/
def Tool.taskSchema : Tool → Option StateSchemaT
  | Tool.task _ _ _ _ sc => some sc
  | Tool.user _ => none

/-- The exact ValueError message of the validation rule (lines 193-196). -/
def configErrorMsg : String :=
  "Cannot specify both post_model_hook and interrupt_config together. Use either interrupt_config for tool interrupts or post_model_hook for custom post-processing."

/-- The guard on line 192 fires exactly when `post_model_hook` is non-None
(callables are truthy) and `interrupt_config` is a non-empty dict. -/
theorem raisesConfigError_iff (a : Args) :
    raisesConfigError a = true ↔
      (a.post_model_hook ≠ none ∧
        ∃ cfg, a.interrupt_config = some cfg ∧ cfg ≠ []) := by
  cases hp : a.post_model_hook <;> cases hc : a.interrupt_config <;>
    simp [raisesConfigError, hookTruthy, cfgTruthy, hp, hc]

/-- On the raising path the factory returns the ValueError and the engine
constructor is never called. -/
theorem create_deep_agent_raise (a : Args) (hr : raisesConfigError a = true) :
    (create_deep_agent a).1 = Except.error configErrorMsg ∧
      (create_deep_agent a).2 = [] := by
  unfold create_deep_agent
  simp [hr, configErrorMsg]

/-- On the non-raising path the factory calls the engine constructor once
with the derived arguments and returns its result. -/
theorem create_deep_agent_ok (a : Args) (hr : raisesConfigError a = false) :
    (create_deep_agent a).1 =
      Except.ok (create_react_agent (modelOf a) (promptOf a) (allToolsOf a)
        (schemaOf a) (selectedHookOf a) a.config_schema a.checkpointer) ∧
    (create_deep_agent a).2 =
      [create_react_agent (modelOf a) (promptOf a) (allToolsOf a)
        (schemaOf a) (selectedHookOf a) a.config_schema a.checkpointer] := by
  unfold create_deep_agent
  simp [hr]

/-- Any `Except.ok` result of the factory is the engine constructor applied
to the derived arguments. -/
theorem create_deep_agent_ok_eq (a : Args) (ag : ReactAgent)
    (h : (create_deep_agent a).1 = Except.ok ag) :
    ag = create_react_agent (modelOf a) (promptOf a) (allToolsOf a)
      (schemaOf a) (selectedHookOf a) a.config_schema a.checkpointer := by
  cases hr : raisesConfigError a
  · have hok := create_deep_agent_ok a hr
    rw [hok.1] at h
    exact (Except.ok.injEq _ _ ▸ h).symm
  · have hraise := create_deep_agent_raise a hr
    rw [hraise.1] at h
    exact absurd h (by simp)

/-- The factory raises exactly when the guard fires. -/
theorem create_deep_agent_isOk (a : Args) :
    (create_deep_agent a).1.isOk = !raisesConfigError a := by
  cases hr : raisesConfigError a
  · rw [(create_deep_agent_ok a hr).1] ; rfl
  · rw [(create_deep_agent_raise a hr).1] ; rfl

/-- Arguments refuting C1 and C6 as stated: both `post_model_hook` and
`interrupt_config` are supplied (non-None), but the interrupt config is the
empty dict, which is falsy in Python. -/
def bothSuppliedEmptyCfg : Args :=
  { tools := [], instructions := "",
    interrupt_config := some [],
    post_model_hook := some (Hook.custom 0) }

/-- C1 (counterexample): with `post_model_hook` supplied and
`interrupt_config` supplied as the empty dict, both arguments are non-None
yet `create_deep_agent` raises no error, because line 192 tests Python
truthiness (`if post_model_hook and interrupt_config`), not non-None-ness. -/
theorem C1_counterexample :
    bothSuppliedEmptyCfg.post_model_hook ≠ none ∧
    bothSuppliedEmptyCfg.interrupt_config ≠ none ∧
    (create_deep_agent bothSuppliedEmptyCfg).1.isOk = true := by
  refine ⟨by simp [bothSuppliedEmptyCfg], by simp [bothSuppliedEmptyCfg], ?_⟩
  rfl

/-- C1 (amended): `create_deep_agent` raises the configuration ValueError if
and only if `post_model_hook` is non-None and `interrupt_config` is a
non-empty dict (both truthy); in every other case it returns a result and
raises no error itself. -/
theorem C1_error_iff_both_truthy (a : Args) :
    (create_deep_agent a).1.isOk = false ↔
      (a.post_model_hook ≠ none ∧
        ∃ cfg, a.interrupt_config = some cfg ∧ cfg ≠ []) := by
  rw [create_deep_agent_isOk, ← raisesConfigError_iff a]
  cases raisesConfigError a <;> simp

/-- An agent built with every optional argument left at its default. -/
def plainArgs : Args :=
  { tools := [Tool.user 1, Tool.user 2], instructions := "Find X." }

/-- C2: the prompt handed to the external constructor is exactly
`base_prompt + instructions`. -/
theorem C2_prompt_is_concat (a : Args) (ag : ReactAgent)
    (h : (create_deep_agent a).1 = Except.ok ag) :
    ag.prompt = base_prompt ++ a.instructions := by
  rw [create_deep_agent_ok_eq a ag h]
  rfl

/-- C2 (witness): at a concrete call, the agent returned carries the
concatenated prompt. -/
theorem C2_witness :
    (create_react_agent (modelOf plainArgs) (promptOf plainArgs)
      (allToolsOf plainArgs) (schemaOf plainArgs) (selectedHookOf plainArgs)
      none none).prompt = base_prompt ++ "Find X." :=
  C2_prompt_is_concat plainArgs _ rfl

/-- C3: every non-raising call invokes the engine constructor exactly once,
with the model, composed prompt, tool collection, state schema, selected
hook, config schema and checkpointer derived by the factory, and returns the
constructed agent unchanged. -/
theorem C3_engine_called_once (a : Args)
    (h : (create_deep_agent a).1.isOk = true) :
    (create_deep_agent a).2 =
      [create_react_agent (modelOf a) (promptOf a) (allToolsOf a) (schemaOf a)
        (selectedHookOf a) a.config_schema a.checkpointer] ∧
    (create_deep_agent a).1 =
      Except.ok (create_react_agent (modelOf a) (promptOf a) (allToolsOf a)
        (schemaOf a) (selectedHookOf a) a.config_schema a.checkpointer) := by
  have hr : raisesConfigError a = false := by
    rw [create_deep_agent_isOk] at h
    cases hb : raisesConfigError a
    · rfl
    · rw [hb] at h ; exact absurd h (by simp)
  exact ⟨(create_deep_agent_ok a hr).2, (create_deep_agent_ok a hr).1⟩

/-- C3 (witness): the default-argument call constructs exactly one agent and
returns it. -/
theorem C3_witness :
    (create_deep_agent plainArgs).2 =
      [create_react_agent (modelOf plainArgs) (promptOf plainArgs)
        (allToolsOf plainArgs) (schemaOf plainArgs) (selectedHookOf plainArgs)
        plainArgs.config_schema plainArgs.checkpointer] ∧
    (create_deep_agent plainArgs).1 =
      Except.ok (create_react_agent (modelOf plainArgs) (promptOf plainArgs)
        (allToolsOf plainArgs) (schemaOf plainArgs) (selectedHookOf plainArgs)
        plainArgs.config_schema plainArgs.checkpointer) :=
  C3_engine_called_once plainArgs rfl

/-- Arguments with a non-empty sub-agent list and one caller tool. -/
def withSubagents : Args :=
  { tools := [Tool.user 7], instructions := "delegate",
    subagents := some [⟨0⟩] }

/-- C4 (counterexample): with a non-empty `subagents` list the task tool
built by `_create_task_tool` is NOT among the tools handed to the engine:
line 189 reads `all_tools = built_in_tools + list(tools)` with the
`+ [task_tool]` part commented out, so the engine receives only the caller
tool `user 7`. -/
theorem C4_counterexample :
    withSubagents.subagents = some [⟨0⟩] ∧
    (create_deep_agent withSubagents).1 =
      Except.ok (create_react_agent (modelOf withSubagents)
        (promptOf withSubagents) [Tool.user 7] (schemaOf withSubagents)
        none none none) ∧
    taskToolOf withSubagents ∉ [Tool.user 7] := by
  refine ⟨rfl, rfl, ?_⟩
  simp [taskToolOf, _create_task_tool]

/-- C4 (amended): the task tool is constructed (lines 182-188) but never
added: for every non-raising call with a non-empty sub-agent list, the tool
collection handed to the engine is exactly the caller-supplied tools, and it
contains the built task tool only if the caller passed it in personally. -/
theorem C4_task_tool_not_added (a : Args) (ss : List SubAgent)
    (_hss : a.subagents = some ss) (_hne : ss ≠ [])
    (ag : ReactAgent) (h : (create_deep_agent a).1 = Except.ok ag) :
    ag.tools = a.tools ∧
      (taskToolOf a ∈ ag.tools ↔ taskToolOf a ∈ a.tools) := by
  have := create_deep_agent_ok_eq a ag h
  subst this
  exact ⟨rfl, Iff.rfl⟩

/-- C4 (witness): at the concrete call with one sub-agent, the engine
receives exactly the caller tool and the task tool is absent. -/
theorem C4_witness :
    (create_react_agent (modelOf withSubagents) (promptOf withSubagents)
      (allToolsOf withSubagents) (schemaOf withSubagents)
      (selectedHookOf withSubagents) none none).tools = withSubagents.tools ∧
    (taskToolOf withSubagents ∈
        (create_react_agent (modelOf withSubagents) (promptOf withSubagents)
          (allToolsOf withSubagents) (schemaOf withSubagents)
          (selectedHookOf withSubagents) none none).tools ↔
      taskToolOf withSubagents ∈ withSubagents.tools) :=
  C4_task_tool_not_added withSubagents [⟨0⟩] rfl (by simp) _ rfl

/-- Arguments supplying only an interrupt configuration. -/
def interruptOnlyArgs : Args :=
  { tools := [], instructions := "",
    interrupt_config := some [("write_file", 5)] }

/-- C5: the hook handed to the engine is the caller hook when
`post_model_hook` is supplied, `create_interrupt_hook interrupt_config` when
only `interrupt_config` is supplied, and `none` when neither is supplied. -/
theorem C5_hook_forwarding (a : Args) (ag : ReactAgent)
    (h : (create_deep_agent a).1 = Except.ok ag) :
    ag.post_model_hook =
      match a.post_model_hook, a.interrupt_config with
      | some hk, _ => some hk
      | none, some cfg => some (create_interrupt_hook cfg)
      | none, none => none := by
  rw [create_deep_agent_ok_eq a ag h]
  show selectedHookOf a = _
  unfold selectedHookOf
  cases hp : a.post_model_hook <;> cases hc : a.interrupt_config <;>
    simp [hp, hc]

/-- C5 (witness): at a call supplying only an interrupt configuration, the
engine receives the hook built by `create_interrupt_hook`. -/
theorem C5_witness :
    (create_react_agent (modelOf interruptOnlyArgs)
      (promptOf interruptOnlyArgs) (allToolsOf interruptOnlyArgs)
      (schemaOf interruptOnlyArgs) (selectedHookOf interruptOnlyArgs)
      none none).post_model_hook =
      some (create_interrupt_hook [("write_file", 5)]) :=
  C5_hook_forwarding interruptOnlyArgs _ rfl

/-- A second copy of the refuting arguments, for C6. -/
def bothSuppliedEmptyCfg6 : Args :=
  { tools := [], instructions := "",
    interrupt_config := some [],
    post_model_hook := some (Hook.custom 1) }

/-- C6 (counterexample): with both arguments supplied (non-None) but the
interrupt config empty, the call is NOT rejected: the engine constructor is
invoked (once) and an agent is returned. -/
theorem C6_counterexample :
    bothSuppliedEmptyCfg6.post_model_hook ≠ none ∧
    bothSuppliedEmptyCfg6.interrupt_config ≠ none ∧
    (create_deep_agent bothSuppliedEmptyCfg6).2.length = 1 ∧
    (create_deep_agent bothSuppliedEmptyCfg6).1.isOk = true := by
  exact ⟨by simp [bothSuppliedEmptyCfg6], by simp [bothSuppliedEmptyCfg6],
    rfl, rfl⟩

/-- C6 (amended): when `post_model_hook` is supplied and `interrupt_config`
is supplied and non-empty (both truthy), the call is rejected with the
ValueError before the engine constructor runs: `create_react_agent` is never
called and no agent is returned. -/
theorem C6_rejected_before_engine (a : Args)
    (hp : a.post_model_hook ≠ none) (cfg : ToolInterruptConfig)
    (hc : a.interrupt_config = some cfg) (hne : cfg ≠ []) :
    (create_deep_agent a).1 = Except.error configErrorMsg ∧
      (create_deep_agent a).2 = [] := by
  have hr : raisesConfigError a = true :=
    (raisesConfigError_iff a).mpr ⟨hp, cfg, hc, hne⟩
  exact create_deep_agent_raise a hr

/-- Arguments supplying both a hook and a non-empty interrupt config. -/
def bothTruthyArgs : Args :=
  { tools := [], instructions := "",
    interrupt_config := some [("ls", 2)],
    post_model_hook := some (Hook.custom 2) }

/-- C6 (witness): at a concrete call with a hook and a non-empty interrupt
config, the factory raises and makes no engine call. -/
theorem C6_witness :
    (create_deep_agent bothTruthyArgs).1 = Except.error configErrorMsg ∧
      (create_deep_agent bothTruthyArgs).2 = [] :=
  C6_rejected_before_engine bothTruthyArgs (by simp [bothTruthyArgs])
    [("ls", 2)] rfl (by simp)

/-- Arguments with several caller tools, for C7. -/
def manyToolsArgs : Args :=
  { tools := [Tool.user 3, Tool.user 1, Tool.user 3], instructions := "go" }

/-- C7: the tool collection handed to the engine is exactly the
caller-supplied tools in the caller order — no built-in todo/file tools and
no task tool are added (both additions are commented out in the source). -/
theorem C7_tools_exactly_callers (a : Args) (ag : ReactAgent)
    (h : (create_deep_agent a).1 = Except.ok ag) :
    ag.tools = a.tools := by
  rw [create_deep_agent_ok_eq a ag h]
  rfl

/-- C7 (witness): a concrete call forwards its three tools unchanged, in
order. -/
theorem C7_witness :
    (create_react_agent (modelOf manyToolsArgs) (promptOf manyToolsArgs)
      (allToolsOf manyToolsArgs) (schemaOf manyToolsArgs)
      (selectedHookOf manyToolsArgs) none none).tools =
      [Tool.user 3, Tool.user 1, Tool.user 3] :=
  C7_tools_exactly_callers manyToolsArgs _ rfl

/-- C8: the model forwarded both to the task-tool builder and to the engine
is `get_default_model ()` when the caller passes none, and the caller model
unchanged otherwise; the engine therefore never receives a None model. -/
theorem C8_model_defaulting (a : Args) :
    (taskToolOf a).taskModel =
      some (match a.model with
            | none => get_default_model
            | some m => m) ∧
    ∀ ag, (create_deep_agent a).1 = Except.ok ag →
      ag.model =
        match a.model with
        | none => get_default_model
        | some m => m := by
  constructor
  · cases hm : a.model <;> simp [taskToolOf, _create_task_tool, Tool.taskModel,
      modelOf, hm]
  · intro ag h
    rw [create_deep_agent_ok_eq a ag h]
    show modelOf a = _
    cases hm : a.model <;> simp [modelOf, hm]

/-- C8 (witness): with `model = none`, both the task tool and the returned
agent carry the default model. -/
theorem C8_witness :
    (taskToolOf plainArgs).taskModel = some get_default_model ∧
    (create_react_agent (modelOf plainArgs) (promptOf plainArgs)
      (allToolsOf plainArgs) (schemaOf plainArgs) (selectedHookOf plainArgs)
      none none).model = get_default_model :=
  ⟨(C8_model_defaulting plainArgs).1,
   (C8_model_defaulting plainArgs).2 _ rfl⟩

/-- Arguments with a caller-supplied state schema, for C9. -/
def customSchemaArgs : Args :=
  { tools := [], instructions := "",
    state_schema := some (StateSchemaT.custom 3) }

/-- C9: the state schema used both by the task-tool builder and by the
engine is the caller schema when supplied and `DeepAgentState` when the
caller passes none; it is never None. -/
theorem C9_schema_defaulting (a : Args) :
    (taskToolOf a).taskSchema =
      some (match a.state_schema with
            | none => DeepAgentState
            | some sc => sc) ∧
    ∀ ag, (create_deep_agent a).1 = Except.ok ag →
      ag.state_schema =
        match a.state_schema with
        | none => DeepAgentState
        | some sc => sc := by
  constructor
  · cases hs : a.state_schema <;> simp [taskToolOf, _create_task_tool,
      Tool.taskSchema, schemaOf, hs]
  · intro ag h
    rw [create_deep_agent_ok_eq a ag h]
    show schemaOf a = _
    cases hs : a.state_schema <;> simp [schemaOf, hs]

/-- C9 (witness): with a custom schema supplied, both the task tool and the
returned agent carry that schema. -/
theorem C9_witness :
    (taskToolOf customSchemaArgs).taskSchema =
      some (StateSchemaT.custom 3) ∧
    (create_react_agent (modelOf customSchemaArgs) (promptOf customSchemaArgs)
      (allToolsOf customSchemaArgs) (schemaOf customSchemaArgs)
      (selectedHookOf customSchemaArgs) none none).state_schema =
      StateSchemaT.custom 3 :=
  ⟨(C9_schema_defaulting customSchemaArgs).1,
   (C9_schema_defaulting customSchemaArgs).2 _ rfl⟩

end DeepAgents
